import Mathlib

set_option maxRecDepth 100000

/-!
Verification development for the telbot repository (multi-domain voice bot).

The definitions below are a shallow embedding of the Python sources:
  src/src/mana_voicebot/core/state.py        (ConversationState, SkillResult)
  src/src/mana_voicebot/core/orchestrator.py (MultiDomainBot.handle_turn and helpers)
  src/src/mana_voicebot/core/brain.py        (MultiDomainBrain)
  src/src/mana_voicebot/persistence/file_store.py (SessionStore)
  src/src/mana_voicebot/skills/reservation.py, smalltalk.py
  src/src/mana_voicebot/data/names.py        (normalize_persian_name)
  src/src/mana_voicebot/io/audio_capture.py  (_trim_trailing_silence)
  src/voice_bot_test.py                      (_process_segment, _keep_speech_only,
                                              _trim_trailing_silence, _remember)

Python dictionaries with string keys are embedded as association lists of
string/PyVal pairs; Python None is PyVal.none; machine audio samples (int16)
are embedded as Int.
-/

namespace Telbot

/-- Embedding of the Python values that flow through the bot: JSON-shaped data
plus the one non-JSON Python object the source stuffs into a dict
(brain.py line 110 puts a ProduceSkill instance under the "produce" key of the
fallback dict; that object is represented opaquely by its class name). -/
inductive PyVal where
  | none : PyVal
  | str : String → PyVal
  | int : Int → PyVal
  | bool : Bool → PyVal
  | list : List PyVal → PyVal
  | dict : List (String × PyVal) → PyVal
  | skill : String → PyVal

/-- Python truthiness (`bool(v)`): None, empty string, zero, empty containers
are falsy; any object instance is truthy. -/
def pyTruthy : PyVal → Bool
  | PyVal.none => false
  | PyVal.str s => s != ""
  | PyVal.int n => n != 0
  | PyVal.bool b => b
  | PyVal.list xs => !xs.isEmpty
  | PyVal.dict fs => !fs.isEmpty
  | PyVal.skill _ => true

/-- Python `str(v)`. For a string it is the string itself; for the scalar
values the exact Python rendering is used. Containers render via repr in
Python; no property below ever inspects the rendering of a container (every
claim exercises this on strings or None only), so containers are rendered by
a length summary here. -/
def pyStrOf : PyVal → String
  | PyVal.none => "None"
  | PyVal.str s => s
  | PyVal.int n => toString n
  | PyVal.bool true => "True"
  | PyVal.bool false => "False"
  | PyVal.list xs => s!"[python list, \x7b{xs.length}\x7d items]"
  | PyVal.dict fs => s!"[python dict, \x7b{fs.length}\x7d items]"
  | PyVal.skill n => s!"[python \x7b{n}\x7d object]"

/-- Python `a or b` on values (returns a when truthy, else b). -/
def pyOr (a b : PyVal) : PyVal := if pyTruthy a then a else b

/-- Embedding of the idiom `str(d.get(k) or default)` used across the skills. -/
def pyOrStr (v : PyVal) (d : String) : String := pyStrOf (pyOr v (PyVal.str d))

/-- Python `d.get(k)` on a string-keyed dict: None when the key is absent. -/
def dictGet (fs : List (String × PyVal)) (k : String) : PyVal :=
  match fs.lookup k with
  | Option.some v => v
  | Option.none => PyVal.none

/-- Python `d.get(k, default)`. -/
def dictGetD (fs : List (String × PyVal)) (k : String) (d : PyVal) : PyVal :=
  match fs.lookup k with
  | Option.some v => v
  | Option.none => d

/-- Python `d.setdefault(k, v)`: inserts k ↦ v only when k is absent (a key
present with value None is kept). New keys append at the end, as in Python
dict insertion order. -/
def pySetdefault (fs : List (String × PyVal)) (k : String) (v : PyVal) :
    List (String × PyVal) :=
  if (fs.lookup k).isSome then fs else fs ++ [(k, v)]

/-- Python `d[k] = v`: overwrite in place when present, else append. -/
def dictSet (fs : List (String × PyVal)) (k : String) (v : PyVal) :
    List (String × PyVal) :=
  if (fs.lookup k).isSome then
    fs.map (fun p => if p.1 = k then (k, v) else p)
  else fs ++ [(k, v)]

/-- Lift an optional string into a PyVal (profile fields are str or None). -/
def optStr : Option String → PyVal
  | Option.none => PyVal.none
  | Option.some s => PyVal.str s

/-- The profile dict of ConversationState (state.py lines 22-24): it is
created as a dict with exactly the keys "name" and "address" (both None) and
no code path ever adds another key, so it is embedded as a two-field record. -/
structure Profile where
  name : Option String
  address : Option String
deriving DecidableEq

/-- ConversationState (state.py lines 19-34). History records are (role, text)
pairs; the four per-domain blobs are free-form string-keyed dicts. -/
structure ConversationState where
  profile : Profile
  notes : List String
  history : List (String × String)
  reservationState : List (String × PyVal)
  salesState : List (String × PyVal)
  produceState : List (String × PyVal)
  visitorState : List (String × PyVal)

/-- A freshly constructed ConversationState (the dataclass defaults). -/
def initState : ConversationState :=
  { profile := { name := Option.none, address := Option.none }
    notes := []
    history := []
    reservationState := []
    salesState := []
    produceState := []
    visitorState := [] }

/-- ConversationState.append_history (state.py lines 33-34). -/
def appendHistory (h : List (String × String)) (role text : String) :
    List (String × String) :=
  h ++ [(role, text)]

/-- MultiDomainBot._clamp_history (orchestrator.py lines 227-231), which is
also exactly the clamp inside VoiceDoctorBot._remember (voice_bot.py lines
607-610): when the history exceeds the limit keep the last `limit` records.
The Python slice `history[-limit:]` is the whole list when limit = 0 (a
Python slicing quirk: `xs[-0:] = xs`), hence the inner branch. The limit is
the config field history_limit, a count, embedded as Nat. -/
def clampHistory (limit : Nat) (h : List (String × String)) :
    List (String × String) :=
  if limit < h.length then
    (if limit = 0 then h else h.drop (h.length - limit))
  else h

/-- One turn of history bookkeeping as handle_turn performs it (orchestrator.py
lines 62-63 and 93-94): append the user record, clamp, append the assistant
record, clamp. -/
def handleTurnHistory (limit : Nat) (h : List (String × String))
    (userText assistantText : String) : List (String × String) :=
  clampHistory limit
    (appendHistory (clampHistory limit (appendHistory h "user" userText))
      "assistant" assistantText)

/-- History produced by a whole sequence of turns starting from the fresh
empty history. -/
def runTurnsHistory (limit : Nat) (turns : List (String × String)) :
    List (String × String) :=
  turns.foldl (fun h t => handleTurnHistory limit h t.1 t.2) []

/-- The Snapshot object as SessionStore.save_snapshot builds it
(file_store.py lines 62-71): the session name plus a projection of the
ConversationState (profile, notes, and the four per-domain blobs). All values
reachable in this codebase are JSON-serializable, so the JSON text encoding is
elided and the object is kept structured. -/
structure Snapshot where
  session : Option String
  profileName : Option String
  profileAddress : Option String
  notes : List String
  reservation : List (String × PyVal)
  sales : List (String × PyVal)
  produce : List (String × PyVal)
  visitor : List (String × PyVal)

/-- SessionStore.save_snapshot (file_store.py lines 62-75). -/
def saveSnapshot (sessionName : Option String) (st : ConversationState) :
    Snapshot :=
  { session := sessionName
    profileName := st.profile.name
    profileAddress := st.profile.address
    notes := st.notes
    reservation := st.reservationState
    sales := st.salesState
    produce := st.produceState
    visitor := st.visitorState }

/-- MultiDomainBot._seed_state_from_snapshot (orchestrator.py lines 233-261)
applied to a snapshot produced by save_snapshot. The source copies
profile.name and profile.address when they are strings (isinstance checks:
here, when the Option is some), re-stringifies notes (the identity on the
string lists this codebase builds), and copies the visitor, reservation and
sales blobs. The produce blob is never read by the source, so it is not
touched here either. -/
def seedStateFromSnapshot (snap : Snapshot) (st : ConversationState) :
    ConversationState :=
  let st1 :=
    match snap.profileName with
    | Option.some n => { st with profile := { st.profile with name := Option.some n } }
    | Option.none => st
  let st2 :=
    match snap.profileAddress with
    | Option.some a => { st1 with profile := { st1.profile with address := Option.some a } }
    | Option.none => st1
  let st3 := { st2 with notes := snap.notes }
  let st4 := { st3 with visitorState := snap.visitor }
  let st5 := { st4 with reservationState := snap.reservation }
  { st5 with salesState := snap.sales }

/-- Whitespace class of the Python regex \s on the inputs of interest:
space, tab, carriage return, line feed, vertical tab and form feed
(Char.isWhitespace covers the first four). -/
def isPyWs (c : Char) : Bool :=
  c.isWhitespace || c = Char.ofNat 11 || c = Char.ofNat 12

/-- Python str.strip(): remove leading and trailing whitespace. -/
def pyStrip (s : String) : String :=
  String.mk (((s.toList.dropWhile isPyWs).reverse.dropWhile isPyWs).reverse)

/-- Collapse every maximal run of whitespace into a single space, the effect
of re.sub applied with pattern backslash-s-plus and replacement " "
(names.py line 26). The Bool argument records whether the previous character
was whitespace. -/
def collapseWsAux : Bool → List Char → List Char
  | _, [] => []
  | prevWs, c :: rest =>
    if isPyWs c then
      (if prevWs then collapseWsAux true rest
       else ' ' :: collapseWsAux true rest)
    else c :: collapseWsAux false rest

/-- normalize_persian_name (names.py lines 21-27): strip, map the Arabic yeh
(U+064A) to the Farsi yeh (U+06CC) and the Arabic kaf (U+0643) to the Farsi
kaf (U+06A9), then collapse whitespace runs to single spaces. -/
def normalizePersianName (name : String) : String :=
  let s := pyStrip name
  let mapped := s.toList.map (fun c =>
    if c = Char.ofNat 0x064A then Char.ofNat 0x06CC
    else if c = Char.ofNat 0x0643 then Char.ofNat 0x06A9
    else c)
  String.mk (collapseWsAux false mapped)

/-- SkillResult (state.py lines 7-12). -/
structure SkillResult where
  reply : String
  domain : String
  intent : String
  payload : List (String × PyVal)

/-- ReservationSkill.handle (reservation.py lines 17-75). Mutates profile,
notes and reservation_state as the source does and returns the SkillResult
together with the mutated state. The local `updated` flag of the source is
computed but never used by any caller, so it is not modeled. -/
def reservationHandle (turnText : String) (st : ConversationState)
    (rawJson : List (String × PyVal)) : SkillResult × ConversationState :=
  let intent := pyOrStr (dictGet rawJson "intent") "booking"
  let reply0 := pyStrip (pyOrStr (dictGet rawJson "reply") "")
  let nameV := dictGet rawJson "name"
  let addressV := dictGet rawJson "address"
  let appointmentV := dictGet rawJson "appointment"
  let notesV := dictGet rawJson "notes"
  let st1 :=
    match nameV with
    | PyVal.str s =>
      if pyStrip s ≠ "" then
        (let norm := normalizePersianName s
         if st.profile.name ≠ Option.some norm then
           { st with profile := { st.profile with name := Option.some norm } }
         else st)
      else st
    | _ => st
  let st2 :=
    match addressV with
    | PyVal.str s =>
      if pyStrip s ≠ "" then
        (let addr := pyStrip s
         if st1.profile.address ≠ Option.some addr then
           { st1 with profile := { st1.profile with address := Option.some addr } }
         else st1)
      else st1
    | _ => st1
  let st3 :=
    match notesV with
    | PyVal.str s =>
      if pyStrip s ≠ "" then { st2 with notes := st2.notes ++ [pyStrip s] } else st2
    | _ => st2
  let st4 :=
    match appointmentV with
    | PyVal.str s =>
      if pyStrip s ≠ "" then
        { st3 with reservationState :=
            dictSet st3.reservationState "appointment" (PyVal.str (pyStrip s)) }
      else st3
    | _ => st3
  let reply :=
    if reply0 = "" then
      (if st4.profile.name.isNone then
        "من دستیار ManaCare هستم از کلینیک DrX. لطفاً نام کامل شما را بفرمایید."
      else if st4.profile.address.isNone then
        "من دستیار ManaCare هستم. لطفاً آدرس شهر و محله خود را هم بفرمایید."
      else
        "برای چه زمانی مایل هستید نوبت بگیرید؟ روز و بازه زمانی را بفرمایید.")
    else reply0
  let payload : List (String × PyVal) :=
    [("intent", PyVal.str intent),
     ("name", optStr st4.profile.name),
     ("address", optStr st4.profile.address),
     ("appointment", dictGet st4.reservationState "appointment"),
     ("notes", notesV)]
  ({ reply := reply, domain := "reservation", intent := intent, payload := payload }, st4)

/-- SmallTalkSkill.handle (smalltalk.py lines 16-33): pure, mutates nothing. -/
def smalltalkHandle (turnText : String) (st : ConversationState)
    (rawJson : List (String × PyVal)) : SkillResult :=
  let intent := pyOrStr (dictGet rawJson "intent") "smalltalk"
  let reply0 := pyStrip (pyOrStr (dictGet rawJson "reply") "")
  let reply :=
    if reply0 = "" then "سلام، من دستیار ManaCare هستم. چطور می‌توانم کمکتان کنم؟"
    else reply0
  { reply := reply, domain := "smalltalk", intent := intent, payload := [] }

/-- The fixed apology reply substituted by MultiDomainBrain._fallback_json
when it is called with no reply (brain.py lines 96-99). -/
def fallbackReply : String :=
  "در دریافت پاسخ فنی مشکلی پیش آمد. لطفاً جمله‌تان را کوتاه‌تر تکرار کنید."

/-- MultiDomainBrain._fallback_json (brain.py lines 95-113). When reply is
None the fixed apology is used. Note that the source places a ProduceSkill
instance (not a dict) under the "produce" key. -/
def fallbackJson (reply : Option String) : List (String × PyVal) :=
  [("domain", PyVal.str "smalltalk"),
   ("intent", PyVal.str "smalltalk"),
   ("reply", PyVal.str (reply.getD fallbackReply)),
   ("reservation", PyVal.dict
      [("name", PyVal.none), ("address", PyVal.none),
       ("appointment", PyVal.none), ("notes", PyVal.none)]),
   ("produce", PyVal.skill "ProduceSkill"),
   ("sales", PyVal.dict
      [("product", PyVal.none), ("quantity", PyVal.none), ("notes", PyVal.none)]),
   ("smalltalk", PyVal.dict [("intent", PyVal.str "smalltalk")])]

/-- MultiDomainBrain._parse_json (brain.py lines 86-93). The outcome of the
external json.loads call on the blob is passed in explicitly: none embeds a
JSONDecodeError, some v a successful parse of value v. Only a successfully
parsed dict is returned as-is; everything else falls back with the raw blob
as the reply. The function is total: no exception escapes. -/
def parseJson (loads : Option PyVal) (blob : String) : List (String × PyVal) :=
  match loads with
  | Option.some (PyVal.dict fs) => fs
  | _ => fallbackJson (Option.some blob)

/-- Outcome of the reasoning-service call inside MultiDomainBrain.infer:
either the OpenAI client raised (caught as OpenAIError, brain.py line 71), or
it returned text whose json.loads outcome and raw text are given. -/
inductive InferOutcome where
  | transportError : InferOutcome
  | response : Option PyVal → String → InferOutcome

/-- MultiDomainBrain.infer (brain.py lines 33-76) restricted to its returned
value: the fixed fallback object on a transport error, otherwise the parse of
the extracted response text. infer never mutates the ConversationState (it
only reads it to build the prompt). It returns one dict. -/
def brainInfer : InferOutcome → List (String × PyVal)
  | InferOutcome.transportError => fallbackJson Option.none
  | InferOutcome.response loads blob => parseJson loads blob

/-- Domain selection in handle_turn (orchestrator.py line 68):
`str(brain_json.get("domain") or "smalltalk")`. -/
def domainOf (brainJson : List (String × PyVal)) : String :=
  pyStrOf (pyOr (dictGet brainJson "domain") (PyVal.str "smalltalk"))

/-- The keys of the skill registry built in MultiDomainBot.__init__
(orchestrator.py lines 38-44). -/
def registeredSkills : List String :=
  ["reservation", "sales", "smalltalk", "produce", "visitor"]

/-- Skill dispatch (orchestrator.py line 89):
`self.skills.get(domain, self.skills["smalltalk"])`, identified by the name
of the chosen skill. -/
def skillFor (domain : String) : String :=
  if domain ∈ registeredSkills then domain else "smalltalk"

/-- Embedding of the Python dynamic errors raised by handle_turn. -/
inductive PyErr where
  | valueError : PyErr
  | attributeError : PyErr
  | typeError : PyErr
deriving DecidableEq

/-- Payload selection in handle_turn (orchestrator.py lines 71-86): pick the
sub-object for the selected domain (an absent key defaults to an empty dict),
then setdefault intent and reply from the top level. A present non-dict value
would make the setdefault attribute access raise, hence the Except. -/
def domainPayloadFor (brainJson : List (String × PyVal)) (domain : String) :
    Except PyErr (List (String × PyVal)) :=
  let raw : PyVal :=
    if domain = "reservation" then dictGetD brainJson "reservation" (PyVal.dict [])
    else if domain = "sales" then dictGetD brainJson "sales" (PyVal.dict [])
    else if domain = "smalltalk" then dictGetD brainJson "smalltalk" (PyVal.dict [])
    else if domain = "produce" then dictGetD brainJson "produce" (PyVal.dict [])
    else if domain = "visitor" then dictGetD brainJson "visitor" (PyVal.dict [])
    else PyVal.dict []
  match raw with
  | PyVal.dict fs =>
    Except.ok
      (pySetdefault (pySetdefault fs "intent" (dictGet brainJson "intent"))
        "reply" (dictGet brainJson "reply"))
  | _ => Except.error PyErr.attributeError

/-- The durable and session-scoped context handle_turn runs in: the mutable
ConversationState plus the files owned by SessionStore and ClientsStore
(session_log.txt, last_session.json, clients.json) and the current session
name. -/
structure World where
  state : ConversationState
  sessionName : Option String
  logFile : List String
  snapshotFile : Option Snapshot
  clientsFile : List String

/-- SessionStore.log_turn (file_store.py lines 77-96): appends one tagged
line when a session name is set, otherwise does nothing. -/
def logTurn (w : World) (role text : String) (domain intent : Option String) :
    World :=
  match w.sessionName with
  | Option.none => w
  | Option.some sess =>
    let tag :=
      match domain, intent with
      | Option.some d, Option.some i => s!"{role}({d}:{i})"
      | Option.some d, Option.none => s!"{role}({d})"
      | Option.none, _ => role
    { w with logFile := w.logFile ++ [s!"[{sess}] {tag}: {text}"] }

/-- The error raised by the statement
`brain_json, usage = self.brain.infer(user_text, self.state)`
(orchestrator.py line 67). MultiDomainBrain.infer returns one dict
(brain.py line 33), and tuple-unpacking a dict iterates over its keys: with
exactly two keys the two key strings are bound, and the very next expression
`brain_json.get("domain")` (line 68) raises AttributeError because a str has
no attribute get; with any other number of keys the unpacking itself raises
ValueError. Either way the turn raises before routing. -/
def unpackError : List (String × PyVal) → PyErr
  | [_, _] => PyErr.attributeError
  | _ => PyErr.valueError

/-- MultiDomainBot.handle_turn (orchestrator.py lines 60-97). The steps that
execute are: append the user record to history, clamp it, log the user line;
then the call to infer and the two-variable unpacking of its dict result
raise (see unpackError), so the turn never reaches routing, skill dispatch,
the assistant-side history append, or any snapshot write — the body contains
no save_snapshot call even syntactically (its only persistence calls are the
two log_turn calls, and the second one would also raise TypeError because it
passes a usage keyword that SessionStore.log_turn does not accept). The
result pairs the raised error with the context as the exception leaves it. -/
def handleTurn (limit : Nat) (w : World) (userText : String)
    (outcome : InferOutcome) : Except PyErr SkillResult × World :=
  let st1 := { w.state with
    history := clampHistory limit (appendHistory w.state.history "user" userText) }
  let w1 := logTurn { w with state := st1 } "user" userText Option.none Option.none
  (Except.error (unpackError (brainInfer outcome)), w1)

/-- The silence test of the trailing trim: `abs_audio[idx] <= threshold`.
Samples are int16 values; the configured threshold (silence_trim_threshold,
default 40.0) is integral, so it is carried as an Int. -/
def isSilentSample (threshold : Int) (x : Int) : Bool :=
  decide ((x.natAbs : Int) ≤ threshold)

/-- The trailing-silence trim, identical in AudioCapture._trim_trailing_silence
(audio_capture.py lines 88-98), voice_bot.py lines 530-540 and
voice_bot_test.py lines 420-430. The Python code scans idx backward from the
last sample while the sample is at or below the threshold and returns
audio[: idx + 1], except that it returns the input unmodified when the scan
reaches idx <= 0 (audio all-silent, or silent after its first sample) or when
the input is empty. Scanning backward while silent is dropWhile on the
reversed buffer; idx + 1 is the length of the remainder, so idx <= 0 is
remainder length at most 1, and audio[: idx + 1] is the remainder reversed
back. -/
def trimTrailingSilence (threshold : Int) (audio : List Int) : List Int :=
  if audio.isEmpty then audio
  else if (audio.reverse.dropWhile (isSilentSample threshold)).length ≤ 1 then audio
  else (audio.reverse.dropWhile (isSilentSample threshold)).reverse

/-- VoiceDoctorBot._keep_speech_only (voice_bot_test.py lines 432-454). The
int16 buffer is cut into consecutive full sub-frames of
sample_rate * 20 / 1000 samples (the loop steps through the byte string in
frame_len * 2 byte chunks and breaks at the first incomplete chunk, so
exactly length / frame_len full frames are visited); the per-frame webrtcvad
classifier is the external oracle vad; kept frames are concatenated. -/
def keepSpeechOnly (vad : List Int → Bool) (sampleRate : Nat)
    (audio : List Int) : List Int :=
  if audio.isEmpty then audio
  else
    let frameLen := sampleRate * 20 / 1000
    let chunks := (List.range (audio.length / frameLen)).map
      (fun i => (audio.drop (i * frameLen)).take frameLen)
    (chunks.filter vad).flatten

/-- The fields of BotConfig consumed by _process_segment. -/
structure RealtimeConfig where
  sampleRate : Nat
  useVadForFiltering : Bool
  silenceTrimThreshold : Int

/-- The optional VAD filtering step of _process_segment (voice_bot_test.py
lines 392-396): when enabled, replace the buffer by the speech-only frames,
but only when that filtered buffer is non-empty — the guard
`if speech_only.size > 0` keeps the unfiltered buffer otherwise. -/
def vadFilteredAudio (cfg : RealtimeConfig) (vad : List Int → Bool)
    (audio1 : List Int) : List Int :=
  if cfg.useVadForFiltering then
    (if 0 < (keepSpeechOnly vad cfg.sampleRate audio1).length
     then keepSpeechOnly vad cfg.sampleRate audio1
     else audio1)
  else audio1

/-- VoiceDoctorBot._process_segment (voice_bot_test.py lines 385-418),
projected onto what it sends downstream: some audio when the segment reaches
the transcription call with that buffer, none when the function returns
before transcribing (and hence logs no user turn). Because of the guard in
vadFilteredAudio, the `if audio_np.size == 0` check at line 398 only fires
for buffers that were already empty, which the first check (line 387) has
excluded. -/
def processSegment (cfg : RealtimeConfig) (vad : List Int → Bool)
    (audio : List Int) : Option (List Int) :=
  if audio.isEmpty then Option.none
  else if (vadFilteredAudio cfg vad
      (trimTrailingSilence cfg.silenceTrimThreshold audio)).isEmpty then Option.none
  else Option.some (vadFilteredAudio cfg vad
      (trimTrailingSilence cfg.silenceTrimThreshold audio))

/-- Test for the only json.loads outcome _parse_json accepts: a dict. -/
def isJsonDict : Option PyVal → Bool
  | Option.some (PyVal.dict _) => true
  | _ => false

/-- The interpretation object of the reservation scenario of the spec:
the fields of the reasoning-service JSON
(domain reservation, nested reservation object with name Ali and a reply). -/
def reservationScenarioFields : List (String × PyVal) :=
  [("domain", PyVal.str "reservation"),
   ("reservation", PyVal.dict
      [("name", PyVal.str "Ali"), ("reply", PyVal.str "نوبت شما ثبت شد.")])]

/-- The reasoning-service outcome of the reservation scenario: a well-formed
response whose json.loads succeeds with the object above. -/
def reservationScenarioOutcome : InferOutcome :=
  InferOutcome.response (Option.some (PyVal.dict reservationScenarioFields))
    "raw reservation response text"

/-- The payload handle_turn would build for the reservation scenario
(sub-object plus the two setdefault entries from the missing top-level
intent and already-present reply). -/
def reservationScenarioPayload : List (String × PyVal) :=
  [("name", PyVal.str "Ali"), ("reply", PyVal.str "نوبت شما ثبت شد."),
   ("intent", PyVal.none)]

/-- The interpretation object of the unknown-domain scenario. -/
def unknownDomainFields : List (String × PyVal) :=
  [("domain", PyVal.str "unknown_xyz"), ("reply", PyVal.str "hi")]

/-- The reasoning-service outcome for the unknown-domain scenario. -/
def unknownDomainOutcome : InferOutcome :=
  InferOutcome.response (Option.some (PyVal.dict unknownDomainFields))
    "raw unknown-domain response text"

/-- A session state whose produce blob is non-empty, exhibiting the snapshot
round-trip asymmetry. -/
def roundTripCounterState : ConversationState :=
  { initState with produceState := [("item", PyVal.str "apple")] }

/-- A concrete richly populated state (produce blob empty, as in every state
this codebase can construct) used to witness the round-trip theorem. -/
def roundTripWitnessState : ConversationState :=
  { profile := { name := Option.some "Ali", address := Option.some "Tehran" }
    notes := ["note-1"]
    history := [("user", "hi")]
    reservationState := [("appointment", PyVal.str "saturday morning")]
    salesState := [("last_product", PyVal.str "telbot")]
    produceState := []
    visitorState := [("last_intent", PyVal.str "intro")] }

/-- The concrete buffer of the VAD-filtering counterexample: one full 20 ms
sub-frame (320 samples at 16 kHz) of loud input. -/
def vadCounterAudio : List Int := List.replicate 320 500

/-- The realtime config of the VAD-filtering counterexample: default sample
rate and trim threshold, with the optional per-sub-frame filtering enabled. -/
def vadCounterCfg : RealtimeConfig :=
  { sampleRate := 16000, useVadForFiltering := true, silenceTrimThreshold := 40 }

/-- A per-sub-frame classifier that rejects every sub-frame. -/
def vadRejectAll : List Int → Bool := fun _ => false

/-- A concrete fresh world (fresh state, new session, empty files), used to
instantiate turn-level witnesses. -/
def initWorld : World :=
  { state := initState
    sessionName := Option.some "session-0"
    logFile := []
    snapshotFile := Option.none
    clientsFile := [] }

/-! Helper lemmas shared by the theorems below. -/

/-- The first element surviving dropWhile fails the predicate. -/
theorem dropWhile_head_false {α : Type} {p : α → Bool} :
    ∀ {l : List α} {h : α} {t : List α}, l.dropWhile p = h :: t → p h = false := by
  intro l
  induction l with
  | nil => intro h t hl; simp [List.dropWhile] at hl
  | cons a l ih =>
    intro h t hl
    by_cases hp : p a
    · rw [List.dropWhile_cons_of_pos hp] at hl
      exact ih hl
    · rw [List.dropWhile_cons_of_neg hp] at hl
      obtain ⟨rfl, -⟩ := List.cons.inj hl
      simpa using hp

/-- dropWhile skips a prefix whose elements all satisfy the predicate. -/
theorem dropWhile_append_all {α : Type} {p : α → Bool} :
    ∀ (l1 l2 : List α), (∀ x ∈ l1, p x = true) →
      (l1 ++ l2).dropWhile p = l2.dropWhile p := by
  intro l1
  induction l1 with
  | nil => intro l2 _; rfl
  | cons a l ih =>
    intro l2 hall
    have hpa : p a = true := hall a (List.mem_cons_self a l)
    rw [List.cons_append, List.dropWhile_cons_of_pos hpa]
    exact ih l2 (fun x hx => hall x (List.mem_cons_of_mem a hx))

/-- Unfolding of the trim on a non-empty buffer. -/
theorem trim_of_ne_nil (threshold : Int) (audio : List Int) (hne : audio ≠ []) :
    trimTrailingSilence threshold audio =
      if (audio.reverse.dropWhile (isSilentSample threshold)).length ≤ 1 then audio
      else (audio.reverse.dropWhile (isSilentSample threshold)).reverse := by
  have hE : audio.isEmpty = false := by
    cases audio with
    | nil => exact absurd rfl hne
    | cons a l => rfl
  unfold trimTrailingSilence
  simp only [hE, Bool.false_eq_true, if_false]

/-- The trim never turns a non-empty buffer into an empty one (helper form,
shared by several theorems). -/
theorem trimTrailingSilence_ne_nil (threshold : Int) (audio : List Int)
    (hne : audio ≠ []) : trimTrailingSilence threshold audio ≠ [] := by
  rw [trim_of_ne_nil threshold audio hne]
  by_cases hr : (audio.reverse.dropWhile (isSilentSample threshold)).length ≤ 1
  · rw [if_pos hr]; exact hne
  · rw [if_neg hr]
    intro hcon
    have : (audio.reverse.dropWhile (isSilentSample threshold)).length = 0 := by
      simpa using congrArg List.length hcon
    omega

/-- Claim C9: the trailing-silence trim is idempotent — for every audio buffer
a and every trim threshold, trim (trim a) = trim a
(audio_capture.py lines 88-98, voice_bot.py lines 530-540). -/
theorem trim_trailing_silence_idempotent (threshold : Int) (audio : List Int) :
    trimTrailingSilence threshold (trimTrailingSilence threshold audio)
      = trimTrailingSilence threshold audio := by
  cases haudio : audio with
  | nil => rfl
  | cons a0 l0 =>
    have hne : a0 :: l0 ≠ [] := List.cons_ne_nil a0 l0
    by_cases hr : (((a0 :: l0).reverse).dropWhile (isSilentSample threshold)).length ≤ 1
    · have h1 : trimTrailingSilence threshold (a0 :: l0) = a0 :: l0 := by
        rw [trim_of_ne_nil threshold _ hne, if_pos hr]
      rw [h1]
      exact h1
    · have h1 : trimTrailingSilence threshold (a0 :: l0)
          = (((a0 :: l0).reverse).dropWhile (isSilentSample threshold)).reverse := by
        rw [trim_of_ne_nil threshold _ hne, if_neg hr]
      rw [h1]
      obtain ⟨h, t, hrr⟩ :
          ∃ h t, ((a0 :: l0).reverse).dropWhile (isSilentSample threshold) = h :: t := by
        cases hcase : ((a0 :: l0).reverse).dropWhile (isSilentSample threshold) with
        | nil => rw [hcase] at hr; simp at hr
        | cons h t => exact ⟨h, t, rfl⟩
      rw [hrr] at hr ⊢
      have hph : isSilentSample threshold h = false := dropWhile_head_false hrr
      have hne2 : ((h :: t).reverse) ≠ [] := by simp
      rw [trim_of_ne_nil threshold _ hne2, List.reverse_reverse,
        List.dropWhile_cons_of_neg (by simp [hph]), if_neg hr]

/-- Claim C10: for every non-empty audio buffer the trailing-silence trim
returns a non-empty buffer; and when the backward scan passes every sample
after the first (all of them at or below the threshold) the input comes back
unmodified (audio_capture.py lines 88-98, voice_bot_test.py lines 420-430). -/
theorem trim_trailing_silence_preserves_nonempty (threshold : Int)
    (audio : List Int) (hne : audio ≠ []) :
    trimTrailingSilence threshold audio ≠ [] ∧
    ((∀ x ∈ audio.tail, isSilentSample threshold x = true) →
      trimTrailingSilence threshold audio = audio) := by
  refine ⟨trimTrailingSilence_ne_nil threshold audio hne, ?_⟩
  intro hall
  cases audio with
  | nil => exact absurd rfl hne
  | cons a0 l0 =>
    have hrev : (a0 :: l0).reverse = l0.reverse ++ [a0] := by simp
    have hdw : ((a0 :: l0).reverse).dropWhile (isSilentSample threshold)
        = List.dropWhile (isSilentSample threshold) [a0] := by
      rw [hrev]
      exact dropWhile_append_all _ _ (fun x hx =>
        hall x (by simpa using List.mem_reverse.mp hx))
    have hlen : (((a0 :: l0).reverse).dropWhile (isSilentSample threshold)).length ≤ 1 := by
      rw [hdw]
      cases hp : isSilentSample threshold a0 <;>
        simp [List.dropWhile, hp]
    rw [trim_of_ne_nil threshold _ (List.cons_ne_nil a0 l0), if_pos hlen]

/-- Witness for C10 at a concrete buffer and the configured default trim
threshold 40. -/
theorem trim_trailing_silence_preserves_nonempty_witness :
    trimTrailingSilence 40 [500, 500, 10] ≠ [] ∧
    ((∀ x ∈ ([500, 500, 10] : List Int).tail, isSilentSample 40 x = true) →
      trimTrailingSilence 40 [500, 500, 10] = [500, 500, 10]) :=
  trim_trailing_silence_preserves_nonempty 40 [500, 500, 10] (by decide)

/-- One append followed by the clamp keeps the history within the limit,
provided it was within the limit before and the limit is positive. -/
theorem clampHistory_append_le (limit : Nat) (hl : 1 ≤ limit)
    (h : List (String × String)) (hh : h.length ≤ limit) (x : String × String) :
    (clampHistory limit (h ++ [x])).length ≤ limit := by
  unfold clampHistory
  by_cases hc : limit < (h ++ [x]).length
  · have hnz : ¬(limit = 0) := by omega
    rw [if_pos hc, if_neg hnz]
    rw [List.length_drop]
    omega
  · rw [if_neg hc]
    omega

/-- Every history reachable by whole turns is within the limit. -/
theorem runTurnsHistory_length_le (limit : Nat) (hl : 1 ≤ limit)
    (turns : List (String × String)) :
    (runTurnsHistory limit turns).length ≤ limit := by
  suffices H : ∀ h : List (String × String), h.length ≤ limit →
      (turns.foldl (fun h t => handleTurnHistory limit h t.1 t.2) h).length ≤ limit by
    exact H [] (by simp)
  induction turns with
  | nil => intro h hh; simpa using hh
  | cons t ts ih =>
    intro h hh
    rw [List.foldl_cons]
    apply ih
    unfold handleTurnHistory appendHistory
    exact clampHistory_append_le limit hl _
      (clampHistory_append_le limit hl _ hh _) _

/-- Claim C4: for every sequence of turns and any positive configured limit,
the history length is at most the limit immediately after the user-side
append-and-clamp and again after the assistant-side append-and-clamp of the
next turn (orchestrator.py lines 62-63, 93-94 and 227-231; the same
append-then-clamp is VoiceDoctorBot._remember, voice_bot.py lines 607-610).
Oldest entries are evicted first: the clamp keeps a suffix. -/
theorem history_clamp_invariant (limit : Nat) (hl : 1 ≤ limit)
    (turns : List (String × String)) (u r : String) :
    (clampHistory limit
        (appendHistory (runTurnsHistory limit turns) "user" u)).length ≤ limit ∧
    (handleTurnHistory limit (runTurnsHistory limit turns) u r).length ≤ limit ∧
    (clampHistory limit
        (appendHistory (runTurnsHistory limit turns) "user" u)).IsSuffix
      (appendHistory (runTurnsHistory limit turns) "user" u) := by
  have hbase := runTurnsHistory_length_le limit hl turns
  refine ⟨?_, ?_, ?_⟩
  · exact clampHistory_append_le limit hl _ hbase _
  · unfold handleTurnHistory appendHistory
    exact clampHistory_append_le limit hl _
      (clampHistory_append_le limit hl _ hbase _) _
  · unfold clampHistory
    by_cases hc : limit < (appendHistory (runTurnsHistory limit turns) "user" u).length
    · by_cases hz : limit = 0
      · simp [hc, hz]
      · simp only [hc, if_true, hz, if_false]
        exact List.drop_suffix _ _
    · simp [hc]

/-- Witness for C4 at the configured history_limit 16 and a concrete turn
sequence. -/
theorem history_clamp_invariant_witness :
    (clampHistory 16
        (appendHistory (runTurnsHistory 16 [("hi", "hello")]) "user" "a")).length ≤ 16 ∧
    (handleTurnHistory 16 (runTurnsHistory 16 [("hi", "hello")]) "a" "b").length ≤ 16 ∧
    (clampHistory 16
        (appendHistory (runTurnsHistory 16 [("hi", "hello")]) "user" "a")).IsSuffix
      (appendHistory (runTurnsHistory 16 [("hi", "hello")]) "user" "a") :=
  history_clamp_invariant 16 (by decide) [("hi", "hello")] "a" "b"

/-- Claim C1: handle_turn never writes the snapshot file — its body contains
no save_snapshot call (the only snapshot write in the package is the one in
start_new_session), and it returns no SkillResult either, since the
two-variable unpacking of the single dict returned by infer raises
(orchestrator.py lines 60-97, file_store.py lines 62-75). The snapshot file
after any turn is therefore whatever start_new_session left there, not the
serialization of the post-turn state. -/
theorem handle_turn_never_writes_snapshot (limit : Nat) (w : World)
    (u : String) (outcome : InferOutcome) :
    (handleTurn limit w u outcome).2.snapshotFile = w.snapshotFile ∧
    ∀ r : SkillResult, (handleTurn limit w u outcome).1 ≠ Except.ok r := by
  constructor
  · unfold handleTurn logTurn
    cases hs : w.sessionName <;> simp
  · intro r hcon
    exact Except.noConfusion hcon

/-- Claim C2 (amended): a save_snapshot / _seed_state_from_snapshot
round-trip into a fresh state reproduces the profile, the notes and the
reservation, sales and visitor blobs; the produce blob is reproduced exactly
when it was empty, because seeding never reads the snapshot produce key
(orchestrator.py lines 233-261 — and no skill in the package ever writes
produce_state, so every reachable state satisfies the hypothesis). -/
theorem snapshot_roundtrip_restores_state (sess : Option String)
    (st : ConversationState) (hp : st.produceState = []) :
    (seedStateFromSnapshot (saveSnapshot sess st) initState).profile = st.profile ∧
    (seedStateFromSnapshot (saveSnapshot sess st) initState).notes = st.notes ∧
    (seedStateFromSnapshot (saveSnapshot sess st) initState).reservationState
      = st.reservationState ∧
    (seedStateFromSnapshot (saveSnapshot sess st) initState).salesState
      = st.salesState ∧
    (seedStateFromSnapshot (saveSnapshot sess st) initState).produceState
      = st.produceState ∧
    (seedStateFromSnapshot (saveSnapshot sess st) initState).visitorState
      = st.visitorState := by
  obtain ⟨⟨pn, pa⟩, notes, history, rs, ss, ps, vs⟩ := st
  simp only at hp
  subst hp
  cases pn <;> cases pa <;>
    simp [saveSnapshot, seedStateFromSnapshot, initState]

/-- Witness for C2 at a concrete populated state. -/
theorem snapshot_roundtrip_restores_state_witness :
    (seedStateFromSnapshot (saveSnapshot (Option.some "session-2")
        roundTripWitnessState) initState).profile = roundTripWitnessState.profile ∧
    (seedStateFromSnapshot (saveSnapshot (Option.some "session-2")
        roundTripWitnessState) initState).notes = roundTripWitnessState.notes ∧
    (seedStateFromSnapshot (saveSnapshot (Option.some "session-2")
        roundTripWitnessState) initState).reservationState
      = roundTripWitnessState.reservationState ∧
    (seedStateFromSnapshot (saveSnapshot (Option.some "session-2")
        roundTripWitnessState) initState).salesState
      = roundTripWitnessState.salesState ∧
    (seedStateFromSnapshot (saveSnapshot (Option.some "session-2")
        roundTripWitnessState) initState).produceState
      = roundTripWitnessState.produceState ∧
    (seedStateFromSnapshot (saveSnapshot (Option.some "session-2")
        roundTripWitnessState) initState).visitorState
      = roundTripWitnessState.visitorState :=
  snapshot_roundtrip_restores_state (Option.some "session-2")
    roundTripWitnessState rfl

/-- Counterexample for C2 as stated: a state with a non-empty produce blob is
saved in full but the reseeded state has lost the blob, so the round-trip
does not reproduce all per-domain state values. -/
theorem snapshot_roundtrip_drops_produce :
    (seedStateFromSnapshot (saveSnapshot (Option.some "session-1")
        roundTripCounterState) initState).produceState
      ≠ roundTripCounterState.produceState := by
  intro hcon
  have h2 : ([] : List (String × PyVal)) = [("item", PyVal.str "apple")] := hcon
  exact List.noConfusion h2

/-- Claim C3: on the reservation scenario response the turn raises
AttributeError at the `brain_json, usage` unpacking (the parsed object has
exactly two keys, so the unpack binds two strings and `.get` fails) and the
clients file is untouched — indeed nothing in the package ever calls
ClientsStore.add, despite the orchestrator docstring. Had routing been
reached, the payload for the reservation domain would be the scenario
payload, and ReservationSkill.handle on it does set profile.name to the
normalized "Ali" and produce a SkillResult with domain "reservation"
(orchestrator.py lines 60-97, reservation.py lines 17-75). -/
theorem reservation_scenario_turn_raises_and_clients_unchanged
    (limit : Nat) (w : World) (u : String) :
    (handleTurn limit w u reservationScenarioOutcome).1
      = Except.error PyErr.attributeError ∧
    (handleTurn limit w u reservationScenarioOutcome).2.clientsFile
      = w.clientsFile ∧
    domainOf reservationScenarioFields = "reservation" ∧
    domainPayloadFor reservationScenarioFields "reservation"
      = Except.ok reservationScenarioPayload ∧
    (reservationHandle u initState reservationScenarioPayload).2.profile.name
      = Option.some (normalizePersianName "Ali") ∧
    normalizePersianName "Ali" = "Ali" ∧
    (reservationHandle u initState reservationScenarioPayload).1.domain
      = "reservation" := by
  refine ⟨rfl, ?_, rfl, rfl, rfl, rfl, rfl⟩
  unfold handleTurn logTurn
  cases hs : w.sessionName <;> simp

/-- Claim C5: on a reasoning-service transport error, infer returns the
fixed fallback object whose reply is the fixed apology string, but the turn
itself produces no SkillResult: the unpacking of the seven-key fallback dict
raises ValueError, leaving the profile (and everything except the user-side
history and log line) unmutated (brain.py lines 33-76 and 95-113,
orchestrator.py line 67). -/
theorem transport_error_fallback_and_turn_raises (limit : Nat) (w : World)
    (u : String) :
    brainInfer InferOutcome.transportError = fallbackJson Option.none ∧
    dictGet (fallbackJson Option.none) "reply" = PyVal.str fallbackReply ∧
    (handleTurn limit w u InferOutcome.transportError).1
      = Except.error PyErr.valueError ∧
    (handleTurn limit w u InferOutcome.transportError).2.state.profile
      = w.state.profile := by
  refine ⟨rfl, rfl, rfl, ?_⟩
  unfold handleTurn logTurn
  cases hs : w.sessionName <;> simp

/-- Claim C6 (amended): a reasoning-service response that is not a valid
JSON object is handled by _parse_json without raising (brain.py lines 86-93)
and maps to the same fallback shape as a transport failure, but with the raw
response text as the reply — not the fixed apology. At the orchestrator the
two outcomes are then treated identically only in that both make handle_turn
raise the same ValueError when the seven-key fallback dict is unpacked at
orchestrator.py line 67 — so an exception does raise past the orchestrator,
for malformed JSON exactly as for a transport failure. -/
theorem malformed_json_same_shape_raw_reply (limit : Nat) (w : World)
    (u : String) (blob : String) (loads : Option PyVal)
    (hnd : isJsonDict loads = false) :
    parseJson loads blob = fallbackJson (Option.some blob) ∧
    dictGet (parseJson loads blob) "reply" = PyVal.str blob ∧
    (handleTurn limit w u (InferOutcome.response loads blob)).1
      = Except.error PyErr.valueError ∧
    (handleTurn limit w u (InferOutcome.response loads blob)).1
      = (handleTurn limit w u InferOutcome.transportError).1 := by
  have h1 : parseJson loads blob = fallbackJson (Option.some blob) := by
    cases loads with
    | none => rfl
    | some v =>
      cases v with
      | dict fs => simp [isJsonDict] at hnd
      | none => rfl
      | str s => rfl
      | int n => rfl
      | bool b => rfl
      | list xs => rfl
      | skill n => rfl
  have h2 : dictGet (parseJson loads blob) "reply" = PyVal.str blob := by
    rw [h1]; rfl
  have h3 : (handleTurn limit w u (InferOutcome.response loads blob)).1
      = Except.error (unpackError (parseJson loads blob)) := rfl
  have h4 : unpackError (parseJson loads blob) = PyErr.valueError := by
    rw [h1]; rfl
  refine ⟨h1, h2, ?_, ?_⟩
  · rw [h3, h4]
  · rw [h3, h4]; rfl

/-- Witness for C6 (amended) at the concrete non-JSON response "hello",
run through a turn on a fresh world. -/
theorem malformed_json_same_shape_raw_reply_witness :
    parseJson Option.none "hello" = fallbackJson (Option.some "hello") ∧
    dictGet (parseJson Option.none "hello") "reply" = PyVal.str "hello" ∧
    (handleTurn 16 initWorld "سلام" (InferOutcome.response Option.none "hello")).1
      = Except.error PyErr.valueError ∧
    (handleTurn 16 initWorld "سلام" (InferOutcome.response Option.none "hello")).1
      = (handleTurn 16 initWorld "سلام" InferOutcome.transportError).1 :=
  malformed_json_same_shape_raw_reply 16 initWorld "سلام" "hello" Option.none rfl

/-- Counterexample for C6 as stated: the parse-failure fallback is not the
same object as the transport-failure fallback — its reply field carries the
raw text instead of the fixed apology. -/
theorem malformed_json_not_same_fallback :
    parseJson Option.none "hello" ≠ fallbackJson Option.none ∧
    pyStrOf (dictGet (parseJson Option.none "hello") "reply") = "hello" ∧
    pyStrOf (dictGet (fallbackJson Option.none) "reply") = fallbackReply := by
  refine ⟨?_, rfl, rfl⟩
  intro hcon
  have h2 := congrArg (fun fs => pyStrOf (dictGet fs "reply")) hcon
  have h3 : "hello" = fallbackReply := h2
  exact absurd h3 (by decide)

/-- Helper: when the VAD filter returns nothing, the filtering step keeps the
unfiltered buffer. -/
theorem vadFilteredAudio_of_empty (cfg : RealtimeConfig)
    (vad : List Int → Bool) (audio1 : List Int)
    (hk : keepSpeechOnly vad cfg.sampleRate audio1 = []) :
    vadFilteredAudio cfg vad audio1 = audio1 := by
  unfold vadFilteredAudio
  rw [hk]
  cases hv : cfg.useVadForFiltering <;> simp

/-- Claim C7 (amended): when per-sub-frame VAD filtering is enabled and the
classifier removes every sub-frame of a non-empty segmented utterance,
_process_segment falls back to the unfiltered trimmed buffer and still sends
it downstream to transcription; only an utterance that was empty before
filtering is dropped (voice_bot_test.py lines 385-418, 432-454). -/
theorem vad_filter_empty_still_sends_unfiltered (cfg : RealtimeConfig)
    (vad : List Int → Bool) (audio : List Int) (hne : audio ≠ [])
    (hk : keepSpeechOnly vad cfg.sampleRate
      (trimTrailingSilence cfg.silenceTrimThreshold audio) = []) :
    processSegment cfg vad audio
      = Option.some (trimTrailingSilence cfg.silenceTrimThreshold audio) := by
  have hE : audio.isEmpty = false := by
    cases audio with
    | nil => exact absurd rfl hne
    | cons a l => rfl
  have ht := trimTrailingSilence_ne_nil cfg.silenceTrimThreshold audio hne
  have hfa : vadFilteredAudio cfg vad
      (trimTrailingSilence cfg.silenceTrimThreshold audio)
      = trimTrailingSilence cfg.silenceTrimThreshold audio :=
    vadFilteredAudio_of_empty cfg vad _ hk
  have hE2 : (vadFilteredAudio cfg vad
      (trimTrailingSilence cfg.silenceTrimThreshold audio)).isEmpty = false := by
    rw [hfa]
    cases hc : trimTrailingSilence cfg.silenceTrimThreshold audio with
    | nil => exact absurd hc ht
    | cons a l => rfl
  unfold processSegment
  rw [hE, hE2]
  simp [hfa]

/-- Witness for C7 (amended) at a concrete loud 320-sample buffer with a
classifier that rejects every sub-frame. -/
theorem vad_filter_empty_still_sends_unfiltered_witness :
    processSegment vadCounterCfg vadRejectAll vadCounterAudio
      = Option.some (trimTrailingSilence 40 vadCounterAudio) :=
  vad_filter_empty_still_sends_unfiltered vadCounterCfg vadRejectAll
    vadCounterAudio (by decide) (by decide)

/-- Counterexample for C7 as stated: with filtering enabled and a classifier
that removes every sub-frame of this non-empty utterance, the segmenter does
not treat the utterance as empty — it sends the unfiltered buffer downstream. -/
theorem vad_filter_everything_removed_still_sent :
    keepSpeechOnly vadRejectAll 16000
      (trimTrailingSilence 40 vadCounterAudio) = [] ∧
    processSegment vadCounterCfg vadRejectAll vadCounterAudio
      = Option.some vadCounterAudio := by
  constructor <;> decide

/-- Claim C8: the routing expressions of handle_turn do default an unknown
domain to smalltalk — the domain string of the scenario object is
unknown_xyz, dispatch on it selects the smalltalk skill, the payload it
would receive is the setdefault-completed empty dict, and
SmallTalkSkill.handle on it returns a smalltalk SkillResult — but
handle_turn itself raises AttributeError at the preceding unpacking of the
infer result for this (two-key) interpretation object, so no SkillResult is
returned for any input (orchestrator.py lines 60-97, smalltalk.py lines
16-33). -/
theorem unknown_domain_routes_to_smalltalk_but_turn_raises (limit : Nat)
    (w : World) (u : String) :
    domainOf unknownDomainFields = "unknown_xyz" ∧
    skillFor (domainOf unknownDomainFields) = "smalltalk" ∧
    domainPayloadFor unknownDomainFields (domainOf unknownDomainFields)
      = Except.ok [("intent", PyVal.none), ("reply", PyVal.str "hi")] ∧
    (smalltalkHandle u initState
      [("intent", PyVal.none), ("reply", PyVal.str "hi")]).domain = "smalltalk" ∧
    (smalltalkHandle u initState
      [("intent", PyVal.none), ("reply", PyVal.str "hi")]).reply = "hi" ∧
    (handleTurn limit w u unknownDomainOutcome).1
      = Except.error PyErr.attributeError :=
  ⟨rfl, rfl, rfl, rfl, rfl, rfl⟩

end Telbot
